import Mathlib

/-!
Verification of the consolidated OCI Data Science MCP server
(`oracle/oci_data_science_mcp_server/server.py`).

The tool functions of the server are shallowly embedded as Lean functions.
Python values appearing in payloads and parameters are modelled by the
inductive `Value`; Python dictionaries are modelled as insertion-ordered
association lists with Python `dict.update` semantics (`dictInsert`,
`dictUpdate`).  Fallible code (SDK calls, `raise`) is modelled with
`Except String`: an `.error e` is a raised exception whose message is `e`.
Each tool takes a provider record of the SDK operations it performs; the
outer `try/except/raise` of the source re-raises every exception, so it is
the identity on the `Except` layer and is not represented separately.
-/

/-- A Python value as it appears in tool parameters and response payloads:
`null` is Python `None`; `obj` is a dict, kept as an insertion-ordered list
of key-value entries. -/
inductive Value where
  | null
  | str (s : String)
  | int (n : Int)
  | bool (b : Bool)
  | list (elems : List Value)
  | obj (fields : List (String × Value))

/-- A response payload: a Python dict, insertion ordered. -/
abbrev Payload := List (String × Value)

/-- Result of a tool invocation: either a raised exception message or a value. -/
abbrev Res (α : Type) := Except String α

/-- The single-quote character, as a string. -/
def squo : String := "\x27"

/-- Wrap a string in single quotes. -/
def qs (s : String) : String := squo ++ s ++ squo

/-- Python `str.strip()` produces the empty string: every character is whitespace. -/
def strBlank (s : String) : Bool := s.data.all Char.isWhitespace

/-- The condition tested by `_require`: `value is None or
(isinstance(value, str) and not value.strip())`. -/
def isBlank : Value → Bool
  | .null => true
  | .str s => strBlank s
  | _ => false

/-- Embed an optional-string parameter as the Python value handed to the
validators (`None` or the string itself). -/
def valueOfStrOpt : Option String → Value
  | none => .null
  | some s => .str s

/-- Python truthiness of an optional-string parameter, as used by
`if project_id:`-style guards: `None` and the empty string are falsy. -/
def optTruthy : Option String → Bool
  | none => false
  | some s => !s.isEmpty

/-- Python `a or b` on two optional strings: `a` unless it is falsy
(`None` or empty). -/
def pyOrStr (a b : Option String) : Option String :=
  match a with
  | some s => if s.isEmpty then b else some s
  | none => b

/-- Message raised by `_require` (the f-string at server.py line 116). -/
def requireMsg (name action : String) : String :=
  "Missing required parameter " ++ qs name ++ " for action=" ++ qs action ++ "."

/-- `_require(value, name, action=action)` (server.py lines 113-116): raises
`ValueError` when the value is `None` or a string whose `strip()` is empty. -/
def _require (value : Value) (name : String) (action : String) : Res Unit :=
  if isBlank value then .error (requireMsg name action) else .ok ()

/-- Message raised by `_at_least_one` (server.py lines 123-125); the keys are
joined with `", "` in the order given. -/
def atLeastOneMsg (keys action : String) : String :=
  "At least one of [" ++ keys ++ "] must be provided for action=" ++ qs action ++ "."

/-- `_at_least_one(*pairs, action=action)` (server.py lines 119-125): raises
unless some value is not `None` and, when a string, has non-empty `strip()`. -/
def _at_least_one (pairs : List (String × Value)) (action : String) : Res Unit :=
  if pairs.any (fun p => !isBlank p.2) then .ok ()
  else .error (atLeastOneMsg (String.intercalate ", " (pairs.map (fun p => p.1))) action)

/-- Python dict assignment `d[k] = v`: replace in place when the key exists,
append otherwise. -/
def dictInsert (d : Payload) (k : String) (v : Value) : Payload :=
  if d.any (fun p => p.1 == k) then d.map (fun p => if p.1 == k then (k, v) else p)
  else d ++ [(k, v)]

/-- Python `d.update(extra)`: assign every entry of `extra` in order. -/
def dictUpdate (d : Payload) (extra : Payload) : Payload :=
  extra.foldl (fun acc p => dictInsert acc p.1 p.2) d

/-- Python `d[k]` as an optional lookup. -/
def dictGet (d : Payload) (k : String) : Option Value :=
  (d.find? (fun p => p.1 == k)).map (fun p => p.2)

/-- `_ok(resource, action, result, **extra)` (server.py lines 128-146):
builds `{"resource": ..., "action": ..., "result": ...}` and merges the
extra keyword fields into it with `payload.update(extra)`. -/
def _ok (resource action : String) (result : Value) (extra : Payload) : Payload :=
  dictUpdate [("resource", .str resource), ("action", .str action), ("result", result)] extra

/-- Message of the fall-through unsupported-action `ValueError` (single quotes
around the action name, no trailing period). -/
def unsupportedMsg (action : String) : String :=
  "Unsupported action=" ++ qs action

/-- `result = result[:limit] if limit is not None` (the client-side truncation
idiom shared by the projects, model-catalog, pipelines and model-deployments
list branches). -/
def takeLimit {α : Type} (limit : Option Nat) (xs : List α) : List α :=
  match limit with
  | none => xs
  | some l => xs.take l

/-! ## Tool 1: `oci_ds_compartments` (server.py lines 160-193) -/

/-- A compartment as consumed by the tool (`c.name`, `c.id`,
`getattr(c, "lifecycle_state", None)`). -/
structure Compartment where
  name : String
  id : String
  lifecycle_state : Option String

/-- External operations performed by `oci_ds_compartments`: loading the OCI
config / tenancy / identity client, and the paginated compartment listing. -/
structure CompartmentsProvider where
  get_config : Res Unit
  list_compartments : Res (List Compartment)

/-- The row dict built for each compartment. -/
def compartmentRow (c : Compartment) : Value :=
  .obj [("name", .str c.name), ("id", .str c.id),
        ("lifecycle_state", valueOfStrOpt c.lifecycle_state)]

/-- `oci_ds_compartments(action)`: lists all compartments and returns both a
name-to-id dict and the row list.  The body performs no dispatch on `action`;
it echoes whatever action string it was invoked with. -/
def oci_ds_compartments (P : CompartmentsProvider) (action : String) : Res Payload :=
  match P.get_config with
  | .error e => .error e
  | .ok _ =>
    match P.list_compartments with
    | .error e => .error e
    | .ok cs =>
      .ok (_ok "compartments" action
        (.obj [("by_name", .obj (cs.foldl (fun d c => dictInsert d c.name (Value.str c.id)) [])),
               ("compartments", .list (cs.map compartmentRow))])
        [])

/-! ## Tool 2: `data_science_projects` (server.py lines 207-308) -/

/-- A project returned by `ProjectCatalog.list_projects` (`p.id`,
`getattr(p, "display_name", None)`, `getattr(p, "description", None)`).
SDK objects always carry their attributes, so `getattr` with a default is
modelled as plain field access with an optional value. -/
structure ProjectRec where
  id : String
  display_name : Option String
  description : Option String

/-- The object returned by `ProjectCatalog.create_project`. -/
structure CreatedProject where
  id : Option String
  display_name : Option String
  description : Option String

/-- External operations of `data_science_projects`.  `init` is the
`ProjectCatalog(compartment_id=...)` construction performed before the action
dispatch; `size` is `len(pc)`. -/
structure ProjectsProvider where
  init : Res Unit
  list_projects : Res (List ProjectRec)
  size : Res Nat
  create_project : String → Option String → String → Res CreatedProject
  update_project : String → List (String × String) → Res Unit
  delete_project : String → Res Unit

/-- The row dict built for each listed project. -/
def projectRow (p : ProjectRec) : Value :=
  .obj [("project_id", .str p.id), ("project_name", valueOfStrOpt p.display_name),
        ("project_description", valueOfStrOpt p.description)]

/-- The kwargs dict passed to `pc.update_project`: `display_name` when
`new_name` is truthy, `description` when `new_description` is truthy. -/
def projectUpdateKwargs (new_name new_description : Option String) : List (String × String) :=
  (if optTruthy new_name then [("display_name", new_name.getD "")] else []) ++
  (if optTruthy new_description then [("description", new_description.getD "")] else [])

/-- `data_science_projects(action, compartment_id, ...)`. -/
def data_science_projects (P : ProjectsProvider) (action : String)
    (compartment_id : String)
    (project_id project_name project_description new_name new_description : Option String)
    (limit : Option Nat) : Res Payload :=
  match P.init with
  | .error e => .error e
  | .ok _ =>
    if action = "count" then
      match P.list_projects with
      | .error e => .error e
      | .ok _ =>
        match P.size with
        | .error e => .error e
        | .ok n =>
          .ok (_ok "projects" action (.int n) [("compartment_id", .str compartment_id)])
    else if action = "list" then
      match P.list_projects with
      | .error e => .error e
      | .ok projects =>
        .ok (_ok "projects" action (.list (takeLimit limit (projects.map projectRow)))
          [("compartment_id", .str compartment_id)])
    else if action = "create" then
      match _require (valueOfStrOpt project_name) "project_name" action with
      | .error e => .error e
      | .ok _ =>
        match P.create_project (project_name.getD "") project_description compartment_id with
        | .error e => .error e
        | .ok created =>
          .ok (_ok "projects" action
            (.obj [("project_id", valueOfStrOpt created.id),
                   ("project_name", valueOfStrOpt created.display_name),
                   ("project_description", valueOfStrOpt created.description)])
            [("next_actions", .list
              [.str ("data_science_notebook_sessions(action=" ++ qs "create" ++ ")"),
               .str ("data_science_jobs(action=" ++ qs "create_script" ++ "|" ++
                     qs "create_container" ++ ")")])])
    else if action = "update" then
      match _require (valueOfStrOpt project_id) "project_id" action with
      | .error e => .error e
      | .ok _ =>
        match _at_least_one [("new_name", valueOfStrOpt new_name),
                             ("new_description", valueOfStrOpt new_description)] action with
        | .error e => .error e
        | .ok _ =>
          match P.update_project (project_id.getD "") (projectUpdateKwargs new_name new_description) with
          | .error e => .error e
          | .ok _ =>
            .ok (_ok "projects" action
              (.obj [("project_id", valueOfStrOpt project_id), ("updated", .bool true)])
              [("compartment_id", .str compartment_id)])
    else if action = "delete" then
      match _require (valueOfStrOpt project_id) "project_id" action with
      | .error e => .error e
      | .ok _ =>
        match P.delete_project (project_id.getD "") with
        | .error e => .error e
        | .ok _ =>
          .ok (_ok "projects" action
            (.obj [("project_id", valueOfStrOpt project_id), ("deleted", .bool true)])
            [("compartment_id", .str compartment_id)])
    else
      .error (unsupportedMsg action)

/-! ## Tool 3: `data_science_model_catalog` (server.py lines 322-467) -/

/-- A model record as consumed by `list_models` reshaping (all attributes read
with `getattr(..., None)`; `time_created` is kept in its `str()` form). -/
structure CatModel where
  id : Option String
  display_name : Option String
  model_version_set_name : Option String
  version_label : Option String
  version_id : Option String
  project_id : Option String
  lifecycle_state : Option String
  time_created : Option String

/-- A model version set (`mvs.id`, `mvs.name`). -/
structure MVS where
  id : String
  name : String

/-- External operations of `data_science_model_catalog`.
`supports_project_filter` models whether `mc.list_models(project_id=...)`
accepts the keyword: when it does not, the call raises `TypeError` and the
source falls back to client-side filtering of `mc.list_models()`.
`from_id` and `download_artifact` are the two calls inside the download
inner `try` of the download branch; `list_files` is `_list_files_recursive(target_dir)`
(path and size per file).  `acquire` is `get_data_science_client()`. -/
structure ModelCatalogProvider where
  list_models : Res (List CatModel)
  list_models_by_project : String → Res (List CatModel)
  supports_project_filter : Bool
  from_id : String → Res Unit
  download_artifact : String → String → Res Unit
  list_files : String → List (String × Option Nat)
  acquire : Res Unit
  list_model_version_sets : String → Res (List MVS)
  mvs_from_id : String → Res Value

/-- The row dict built for each listed model. -/
def modelRow (m : CatModel) : Value :=
  .obj [("model_id", valueOfStrOpt m.id),
        ("display_name", valueOfStrOpt m.display_name),
        ("model_version_set", valueOfStrOpt m.model_version_set_name),
        ("model_version_label", valueOfStrOpt m.version_label),
        ("model_version_id", valueOfStrOpt m.version_id),
        ("project_id", valueOfStrOpt m.project_id),
        ("lifecycle_state", valueOfStrOpt m.lifecycle_state),
        ("time_created", valueOfStrOpt m.time_created)]

/-- The row dict built for each file found under `target_dir`. -/
def fileRow (f : String × Option Nat) : Value :=
  .obj [("path", .str f.1),
        ("bytes", match f.2 with | none => .null | some n => .int n)]

/-- The row dict built for each model version set. -/
def mvsRow (v : MVS) : Value :=
  .obj [("id", .str v.id), ("name", .str v.name)]

/-- `data_science_model_catalog(action, compartment_id, ...)`.  Note the
download branch: the inner `try` around `GenericModel.from_id` and
`model.download_artifact` catches every exception and only logs it, so the
branch continues to the success payload regardless of the outcome. -/
def data_science_model_catalog (P : ModelCatalogProvider) (action : String)
    (compartment_id : String)
    (project_id model_id target_dir model_version_set_id : Option String)
    (limit : Option Nat) : Res Payload :=
  if action = "count" then
    match P.list_models with
    | .error e => .error e
    | .ok ms =>
      .ok (_ok "model_catalog" action (.int ms.length) [("compartment_id", .str compartment_id)])
  else if action = "list_models" then
    match (if optTruthy project_id then
             if P.supports_project_filter then
               P.list_models_by_project (project_id.getD "")
             else
               match P.list_models with
               | .error e => .error e
               | .ok ms => .ok (ms.filter (fun m => m.project_id == project_id))
           else P.list_models) with
    | .error e => .error e
    | .ok models =>
      .ok (_ok "model_catalog" action (.list (takeLimit limit (models.map modelRow)))
        [("compartment_id", .str compartment_id)])
  else if action = "download" then
    match _require (valueOfStrOpt model_id) "model_id" action with
    | .error e => .error e
    | .ok _ =>
      match _require (valueOfStrOpt target_dir) "target_dir" action with
      | .error e => .error e
      | .ok _ =>
        match (match P.from_id (model_id.getD "") with
               | .error e => (.error e : Res Unit)
               | .ok _ => P.download_artifact (model_id.getD "") (target_dir.getD "")) with
        | _ =>
          .ok (_ok "model_catalog" action
            (.obj [("artifact_dir", valueOfStrOpt target_dir),
                   ("downloaded_files", .list ((P.list_files (target_dir.getD "")).map fileRow)),
                   ("downloaded_files_count", .int (P.list_files (target_dir.getD "")).length)])
            [("compartment_id", .str compartment_id)])
  else if action = "list_version_sets" then
    match P.acquire with
    | .error e => .error e
    | .ok _ =>
      match P.list_model_version_sets compartment_id with
      | .error e => .error e
      | .ok mvss =>
        .ok (_ok "model_catalog" action (.list (takeLimit limit (mvss.map mvsRow)))
          [("compartment_id", .str compartment_id)])
  else if action = "version_set_attributes" then
    match _require (valueOfStrOpt model_version_set_id) "model_version_set_id" action with
    | .error e => .error e
    | .ok _ =>
      match P.mvs_from_id (model_version_set_id.getD "") with
      | .error e => .error e
      | .ok v =>
        .ok (_ok "model_catalog" action v [("compartment_id", .str compartment_id)])
  else
    .error (unsupportedMsg action)

/-! ## Tool 4: `data_science_jobs` (server.py lines 481-617) -/

/-- A job summary from `DataScienceJob.list_jobs` (`j.job_id`, `j.name`). -/
structure JobSummary where
  job_id : String
  name : String

/-- The infrastructure/runtime configuration assembled for a script job.
The optional `(ocpus, memory_in_gbs)` pair is attached only when both are
given; the float `memory_in_gbs` is carried as its numeric value. -/
structure ScriptJobSpec where
  shape : String
  compartment_id : String
  project_id : String
  block_storage_size : Nat
  shape_config : Option (Nat × Nat)
  display_name : String
  conda_env : String
  script_path : String

/-- The configuration assembled for a container job (shape is the hard-coded
`"VM.Standard2.1"`). -/
structure ContainerJobSpec where
  compartment_id : String
  project_id : String
  shape : String
  display_name : String
  image : String

/-- External operations of `data_science_jobs`.  `job_details` and
`job_delete` fold `Job.from_datascience_job(job_id)` with the subsequent
`to_dict()` / `delete()`; `acquire` is the `get_data_science_client()` call
made inside the update branch. -/
structure JobsProvider where
  list_jobs : String → Res (List JobSummary)
  job_details : String → Res Value
  job_delete : String → Res Unit
  create_script_job : ScriptJobSpec → Res Value
  create_container_job : ContainerJobSpec → Res Value
  acquire : Res Unit
  update_job : String → Option String → Res Unit

/-- The row dict built for each listed job. -/
def jobRow (j : JobSummary) : Value :=
  .obj [("job_id", .str j.job_id), ("job_name", .str j.name)]

/-- `infra.with_shape_config_details(...)` is applied only when both `ocpus`
and `memory_in_gbs` are not `None`. -/
def shapeConfigOf (ocpus memory_in_gbs : Option Nat) : Option (Nat × Nat) :=
  match ocpus, memory_in_gbs with
  | some o, some m => some (o, m)
  | _, _ => none

/-- `data_science_jobs(action, ...)`. -/
def data_science_jobs (P : JobsProvider) (action : String)
    (compartment_id project_id job_id display_name script_path : Option String)
    (conda_env shape : String) (ocpus : Option Nat) (memory_in_gbs : Option Nat)
    (block_storage_size : Nat) (image new_display_name : Option String) : Res Payload :=
  if action = "list" then
    match _require (valueOfStrOpt compartment_id) "compartment_id" action with
    | .error e => .error e
    | .ok _ =>
      match P.list_jobs (compartment_id.getD "") with
      | .error e => .error e
      | .ok jobs =>
        .ok (_ok "jobs" action (.list (jobs.map jobRow))
          [("compartment_id", valueOfStrOpt compartment_id)])
  else if action = "details" then
    match _require (valueOfStrOpt job_id) "job_id" action with
    | .error e => .error e
    | .ok _ =>
      match P.job_details (job_id.getD "") with
      | .error e => .error e
      | .ok d => .ok (_ok "jobs" action d [])
  else if action = "delete" then
    match _require (valueOfStrOpt job_id) "job_id" action with
    | .error e => .error e
    | .ok _ =>
      match P.job_delete (job_id.getD "") with
      | .error e => .error e
      | .ok _ =>
        .ok (_ok "jobs" action
          (.obj [("job_id", valueOfStrOpt job_id), ("deleted", .bool true)]) [])
  else if action = "create_script" then
    match _require (valueOfStrOpt compartment_id) "compartment_id" action with
    | .error e => .error e
    | .ok _ =>
      match _require (valueOfStrOpt project_id) "project_id" action with
      | .error e => .error e
      | .ok _ =>
        match _require (valueOfStrOpt script_path) "script_path" action with
        | .error e => .error e
        | .ok _ =>
          match _require (valueOfStrOpt display_name) "display_name" action with
          | .error e => .error e
          | .ok _ =>
            match P.create_script_job
                { shape := shape
                  compartment_id := compartment_id.getD ""
                  project_id := project_id.getD ""
                  block_storage_size := block_storage_size
                  shape_config := shapeConfigOf ocpus memory_in_gbs
                  display_name := display_name.getD ""
                  conda_env := conda_env
                  script_path := script_path.getD "" } with
            | .error e => .error e
            | .ok d =>
              .ok (_ok "jobs" action d
                [("next_actions", .list
                  [.str ("data_science_job_runs(action=" ++ qs "start" ++ ")")])])
  else if action = "create_container" then
    match _require (valueOfStrOpt compartment_id) "compartment_id" action with
    | .error e => .error e
    | .ok _ =>
      match _require (valueOfStrOpt project_id) "project_id" action with
      | .error e => .error e
      | .ok _ =>
        match _require (valueOfStrOpt image) "image" action with
        | .error e => .error e
        | .ok _ =>
          match _require (valueOfStrOpt display_name) "display_name" action with
          | .error e => .error e
          | .ok _ =>
            match P.create_container_job
                { compartment_id := compartment_id.getD ""
                  project_id := project_id.getD ""
                  shape := "VM.Standard2.1"
                  display_name := display_name.getD ""
                  image := image.getD "" } with
            | .error e => .error e
            | .ok d =>
              .ok (_ok "jobs" action d
                [("next_actions", .list
                  [.str ("data_science_job_runs(action=" ++ qs "start" ++ ")")])])
  else if action = "update" then
    match _require (valueOfStrOpt job_id) "job_id" action with
    | .error e => .error e
    | .ok _ =>
      match _at_least_one [("new_display_name", valueOfStrOpt new_display_name)] action with
      | .error e => .error e
      | .ok _ =>
        match P.acquire with
        | .error e => .error e
        | .ok _ =>
          match P.update_job (job_id.getD "") new_display_name with
          | .error e => .error e
          | .ok _ =>
            .ok (_ok "jobs" action
              (.obj [("job_id", valueOfStrOpt job_id), ("updated", .bool true)]) [])
  else
    .error (unsupportedMsg action)

/-! ## Tool 5: `data_science_job_runs` (server.py lines 630-753) -/

/-- The object returned by `create_job_run` / `create_pipeline_run`:
the attributes read by the tool plus its `oci.util.to_dict` form. -/
structure RunData where
  id : Option String
  lifecycle_state : Option String
  state : Option String
  raw : Value

/-- A run returned by a list/get call: its `id` attribute and its
`oci.util.to_dict` form. -/
structure RunItem where
  id : String
  raw : Value

/-- The keyword arguments of a `list_job_runs` call. -/
structure ListJobRunsArgs where
  compartment_id : String
  job_id : Option String
  limit : Option Nat
  sort_by : Option String
  sort_order : Option String

/-- External operations of `data_science_job_runs`; `acquire` is the
`get_data_science_client()` call made before the dispatch. -/
structure JobRunsProvider where
  acquire : Res Unit
  create_job_run : String → String → String → String → Res RunData
  list_job_runs : ListJobRunsArgs → Res (List RunItem)
  get_job_run : String → Res RunItem
  cancel_job_run : String → Res Unit

/-- `data_science_job_runs(action, ...)`. -/
def data_science_job_runs (P : JobRunsProvider) (action : String)
    (compartment_id project_id job_id display_name job_run_id : Option String)
    (limit : Option Nat) : Res Payload :=
  match P.acquire with
  | .error e => .error e
  | .ok _ =>
    if action = "start" then
      match _require (valueOfStrOpt compartment_id) "compartment_id" action with
      | .error e => .error e
      | .ok _ =>
        match _require (valueOfStrOpt project_id) "project_id" action with
        | .error e => .error e
        | .ok _ =>
          match _require (valueOfStrOpt job_id) "job_id" action with
          | .error e => .error e
          | .ok _ =>
            match _require (valueOfStrOpt display_name) "display_name" action with
            | .error e => .error e
            | .ok _ =>
              match P.create_job_run (project_id.getD "") (compartment_id.getD "")
                  (job_id.getD "") (display_name.getD "") with
              | .error e => .error e
              | .ok data =>
                .ok (_ok "job_runs" action
                  (.obj [("job_run_id", valueOfStrOpt data.id),
                         ("lifecycle_state",
                          valueOfStrOpt (pyOrStr data.lifecycle_state data.state)),
                         ("raw", data.raw)])
                  [])
    else if action = "list" then
      match _require (valueOfStrOpt compartment_id) "compartment_id" action with
      | .error e => .error e
      | .ok _ =>
        match P.list_job_runs
            { compartment_id := compartment_id.getD ""
              job_id := if optTruthy job_id then job_id else none
              limit := limit
              sort_by := none
              sort_order := none } with
        | .error e => .error e
        | .ok runs =>
          .ok (_ok "job_runs" action (.list (runs.map RunItem.raw)) [])
    else if action = "status" then
      if optTruthy job_run_id then
        match P.get_job_run (job_run_id.getD "") with
        | .error e => .error e
        | .ok run => .ok (_ok "job_runs" action run.raw [])
      else
        match _require (valueOfStrOpt compartment_id) "compartment_id" action with
        | .error e => .error e
        | .ok _ =>
          match _require (valueOfStrOpt job_id) "job_id" action with
          | .error e => .error e
          | .ok _ =>
            match P.list_job_runs
                { compartment_id := compartment_id.getD ""
                  job_id := job_id
                  limit := some 1
                  sort_by := some "timeCreated"
                  sort_order := some "DESC" } with
            | .error e => .error e
            | .ok [] =>
              .ok (_ok "job_runs" action .null [("message", .str "No job runs found.")])
            | .ok (r :: _) =>
              .ok (_ok "job_runs" action r.raw [])
    else if action = "cancel" then
      if optTruthy job_run_id then
        match P.cancel_job_run (job_run_id.getD "") with
        | .error e => .error e
        | .ok _ =>
          .ok (_ok "job_runs" action
            (.obj [("job_run_id", valueOfStrOpt job_run_id),
                   ("cancel_requested", .bool true)]) [])
      else
        match _require (valueOfStrOpt compartment_id) "compartment_id" action with
        | .error e => .error e
        | .ok _ =>
          match _require (valueOfStrOpt job_id) "job_id" action with
          | .error e => .error e
          | .ok _ =>
            match P.list_job_runs
                { compartment_id := compartment_id.getD ""
                  job_id := job_id
                  limit := some 1
                  sort_by := some "timeCreated"
                  sort_order := some "DESC" } with
            | .error e => .error e
            | .ok [] =>
              .ok (_ok "job_runs" action .null
                [("message", .str "No job runs found to cancel.")])
            | .ok (r :: _) =>
              match P.cancel_job_run r.id with
              | .error e => .error e
              | .ok _ =>
                .ok (_ok "job_runs" action
                  (.obj [("job_run_id", .str r.id), ("cancel_requested", .bool true)]) [])
    else
      .error (unsupportedMsg action)

/-! ## Tool 6: `data_science_notebook_sessions` (server.py lines 767-900) -/

/-- A notebook session summary (`s.id`, `s.display_name`, `s.lifecycle_state`). -/
structure NbSummary where
  id : String
  display_name : String
  lifecycle_state : String

/-- `NotebookSessionConfigDetails`: the kwargs assembled in the create branch;
`subnet_id` / `private_endpoint_id` only when truthy, the shape-config pair
only when both `ocpus` and `memory_in_gbs` are given. -/
structure NbConfig where
  shape : String
  block_storage_size_in_gbs : Nat
  subnet_id : Option String
  private_endpoint_id : Option String
  shape_config : Option (Nat × Nat)

/-- `CreateNotebookSessionDetails`. -/
structure CreateNbDetails where
  display_name : String
  project_id : String
  compartment_id : String
  config : NbConfig

/-- The object returned by `create_notebook_session` (attributes read with
`getattr`; `time_created` in its `str()` form). -/
structure NbCreated where
  id : Option String
  display_name : Option String
  time_created : String
  notebook_session_url : Option String

/-- External operations of `data_science_notebook_sessions`; `acquire` is the
`get_data_science_client()` call made before the dispatch;
`get_notebook_session` yields the `notebook_session_url` attribute. -/
structure NotebookProvider where
  acquire : Res Unit
  list_notebook_sessions : String → Res (List NbSummary)
  create_notebook_session : CreateNbDetails → Res NbCreated
  activate_notebook_session : String → Res Unit
  get_notebook_session : String → Res (Option String)
  deactivate_notebook_session : String → Res Unit
  delete_notebook_session : String → Res Unit

/-- The row dict built for each listed notebook session. -/
def nbRow (s : NbSummary) : Value :=
  .obj [("id", .str s.id), ("name", .str s.display_name),
        ("lifecycle_state", .str s.lifecycle_state)]

/-- `flex_shapes = {"VM.Standard.E5.Flex", "VM.Standard.E4.Flex"}`. -/
def flexShapes : List String := ["VM.Standard.E5.Flex", "VM.Standard.E4.Flex"]

/-- Message of the flexible-shape validation error (server.py lines 824-826). -/
def flexMsg : String :=
  "For flexible shapes you must provide both ocpus and memory_in_gbs."

/-- The `NotebookSessionConfigDetails` kwargs assembled in the create branch. -/
def nbConfigOf (shape : String) (block_storage_size_in_gbs : Nat)
    (subnet_id private_endpoint_id : Option String)
    (ocpus memory_in_gbs : Option Nat) : NbConfig :=
  { shape := shape
    block_storage_size_in_gbs := block_storage_size_in_gbs
    subnet_id := if optTruthy subnet_id then subnet_id else none
    private_endpoint_id := if optTruthy private_endpoint_id then private_endpoint_id else none
    shape_config := shapeConfigOf ocpus memory_in_gbs }

/-- `data_science_notebook_sessions(action, ...)`. -/
def data_science_notebook_sessions (P : NotebookProvider) (action : String)
    (compartment_id project_id notebook_session_id display_name : Option String)
    (shape : String) (block_storage_size_in_gbs : Nat)
    (subnet_id private_endpoint_id : Option String)
    (ocpus memory_in_gbs : Option Nat) : Res Payload :=
  match P.acquire with
  | .error e => .error e
  | .ok _ =>
    if action = "list" then
      match _require (valueOfStrOpt compartment_id) "compartment_id" action with
      | .error e => .error e
      | .ok _ =>
        match P.list_notebook_sessions (compartment_id.getD "") with
        | .error e => .error e
        | .ok sessions =>
          .ok (_ok "notebook_sessions" action (.list (sessions.map nbRow))
            [("compartment_id", valueOfStrOpt compartment_id)])
    else if action = "create" then
      match _require (valueOfStrOpt compartment_id) "compartment_id" action with
      | .error e => .error e
      | .ok _ =>
        match _require (valueOfStrOpt project_id) "project_id" action with
        | .error e => .error e
        | .ok _ =>
          match _require (valueOfStrOpt display_name) "display_name" action with
          | .error e => .error e
          | .ok _ =>
            if flexShapes.contains shape && (ocpus.isNone || memory_in_gbs.isNone) then
              .error flexMsg
            else
              match P.create_notebook_session
                  { display_name := display_name.getD ""
                    project_id := project_id.getD ""
                    compartment_id := compartment_id.getD ""
                    config := nbConfigOf shape block_storage_size_in_gbs
                        subnet_id private_endpoint_id ocpus memory_in_gbs } with
              | .error e => .error e
              | .ok data =>
                .ok (_ok "notebook_sessions" action
                  (.obj [("id", valueOfStrOpt data.id),
                         ("display_name", valueOfStrOpt data.display_name),
                         ("time_created", .str data.time_created),
                         ("notebook_session_url", valueOfStrOpt data.notebook_session_url)])
                  [("next_actions", .list
                    [.str ("data_science_notebook_sessions(action=" ++ qs "activate" ++ ")")])])
    else if action = "activate" then
      match _require (valueOfStrOpt compartment_id) "compartment_id" action with
      | .error e => .error e
      | .ok _ =>
        match _require (valueOfStrOpt notebook_session_id) "notebook_session_id" action with
        | .error e => .error e
        | .ok _ =>
          match P.activate_notebook_session (notebook_session_id.getD "") with
          | .error e => .error e
          | .ok _ =>
            match P.get_notebook_session (notebook_session_id.getD "") with
            | .error e => .error e
            | .ok url =>
              .ok (_ok "notebook_sessions" action
                (.obj [("notebook_session_id", valueOfStrOpt notebook_session_id),
                       ("message", .str "Notebook session activating."),
                       ("notebook_session_url", valueOfStrOpt url)]) [])
    else if action = "stop" then
      match _require (valueOfStrOpt notebook_session_id) "notebook_session_id" action with
      | .error e => .error e
      | .ok _ =>
        match P.deactivate_notebook_session (notebook_session_id.getD "") with
        | .error e => .error e
        | .ok _ =>
          .ok (_ok "notebook_sessions" action
            (.obj [("notebook_session_id", valueOfStrOpt notebook_session_id),
                   ("stopped", .bool true)]) [])
    else if action = "delete" then
      match _require (valueOfStrOpt notebook_session_id) "notebook_session_id" action with
      | .error e => .error e
      | .ok _ =>
        match P.delete_notebook_session (notebook_session_id.getD "") with
        | .error e => .error e
        | .ok _ =>
          .ok (_ok "notebook_sessions" action
            (.obj [("notebook_session_id", valueOfStrOpt notebook_session_id),
                   ("deleted", .bool true)]) [])
    else
      .error (unsupportedMsg action)

/-! ## Tool 7: `data_science_pipelines` (server.py lines 913-960) -/

/-- A pipeline summary (`p.id`, `p.display_name`). -/
structure PipelineSummary where
  id : String
  display_name : String

/-- External operations of `data_science_pipelines`; `acquire` is the
`get_data_science_client()` call made before the dispatch; `get_pipeline`
yields the `oci.util.to_dict` form of the response data. -/
structure PipelinesProvider where
  acquire : Res Unit
  list_pipelines : String → Res (List PipelineSummary)
  get_pipeline : String → Res Value
  delete_pipeline : String → Res Unit

/-- The row dict built for each listed pipeline. -/
def pipelineRow (p : PipelineSummary) : Value :=
  .obj [("id", .str p.id), ("name", .str p.display_name)]

/-- `data_science_pipelines(action, ...)`. -/
def data_science_pipelines (P : PipelinesProvider) (action : String)
    (compartment_id pipeline_id : Option String) (limit : Option Nat) : Res Payload :=
  match P.acquire with
  | .error e => .error e
  | .ok _ =>
    if action = "list" then
      match _require (valueOfStrOpt compartment_id) "compartment_id" action with
      | .error e => .error e
      | .ok _ =>
        match P.list_pipelines (compartment_id.getD "") with
        | .error e => .error e
        | .ok pipes =>
          .ok (_ok "pipelines" action (.list (takeLimit limit (pipes.map pipelineRow)))
            [("compartment_id", valueOfStrOpt compartment_id)])
    else if action = "details" then
      match _require (valueOfStrOpt pipeline_id) "pipeline_id" action with
      | .error e => .error e
      | .ok _ =>
        match P.get_pipeline (pipeline_id.getD "") with
        | .error e => .error e
        | .ok d => .ok (_ok "pipelines" action d [])
    else if action = "delete" then
      match _require (valueOfStrOpt pipeline_id) "pipeline_id" action with
      | .error e => .error e
      | .ok _ =>
        match P.delete_pipeline (pipeline_id.getD "") with
        | .error e => .error e
        | .ok _ =>
          .ok (_ok "pipelines" action
            (.obj [("pipeline_id", valueOfStrOpt pipeline_id),
                   ("delete_requested", .bool true)]) [])
    else
      .error (unsupportedMsg action)

/-! ## Tool 8: `data_science_pipeline_runs` (server.py lines 973-1056) -/

/-- The object returned by `create_pipeline_run`. -/
structure PipelineRunData where
  id : Option String
  lifecycle_state : Option String
  raw : Value

/-- The keyword arguments of a `list_pipeline_runs` call. -/
structure ListPipelineRunsArgs where
  compartment_id : String
  pipeline_id : String
  limit : Option Nat
  sort_by : Option String
  sort_order : Option String

/-- External operations of `data_science_pipeline_runs`; `acquire` is the
`get_data_science_client()` call, made after the two `_require` checks. -/
structure PipelineRunsProvider where
  acquire : Res Unit
  create_pipeline_run : String → String → Option String → Res PipelineRunData
  list_pipeline_runs : ListPipelineRunsArgs → Res (List RunItem)
  get_pipeline_run : String → Res RunItem

/-- `data_science_pipeline_runs(action, ...)`: `compartment_id` and
`pipeline_id` are validated before the action is dispatched. -/
def data_science_pipeline_runs (P : PipelineRunsProvider) (action : String)
    (compartment_id pipeline_id display_name pipeline_run_id : Option String)
    (limit : Option Nat) : Res Payload :=
  match _require (valueOfStrOpt compartment_id) "compartment_id" action with
  | .error e => .error e
  | .ok _ =>
    match _require (valueOfStrOpt pipeline_id) "pipeline_id" action with
    | .error e => .error e
    | .ok _ =>
      match P.acquire with
      | .error e => .error e
      | .ok _ =>
        if action = "start" then
          match P.create_pipeline_run (compartment_id.getD "") (pipeline_id.getD "")
              display_name with
          | .error e => .error e
          | .ok data =>
            .ok (_ok "pipeline_runs" action
              (.obj [("pipeline_run_id", valueOfStrOpt data.id),
                     ("lifecycle_state", valueOfStrOpt data.lifecycle_state),
                     ("raw", data.raw)]) [])
        else if action = "list" then
          match P.list_pipeline_runs
              { compartment_id := compartment_id.getD ""
                pipeline_id := pipeline_id.getD ""
                limit := limit
                sort_by := none
                sort_order := none } with
          | .error e => .error e
          | .ok runs =>
            .ok (_ok "pipeline_runs" action (.list (runs.map RunItem.raw)) [])
        else if action = "status" then
          if optTruthy pipeline_run_id then
            match P.get_pipeline_run (pipeline_run_id.getD "") with
            | .error e => .error e
            | .ok run => .ok (_ok "pipeline_runs" action run.raw [])
          else
            match P.list_pipeline_runs
                { compartment_id := compartment_id.getD ""
                  pipeline_id := pipeline_id.getD ""
                  limit := some 1
                  sort_by := some "timeAccepted"
                  sort_order := some "DESC" } with
            | .error e => .error e
            | .ok [] =>
              .ok (_ok "pipeline_runs" action .null
                [("message", .str "No pipeline runs found.")])
            | .ok (r :: _) =>
              .ok (_ok "pipeline_runs" action r.raw [])
        else
          .error (unsupportedMsg action)

/-! ## Tool 9: `data_science_model_deployments` (server.py lines 1070-1192) -/

/-- A model deployment summary (`d.id`, `d.display_name`, `d.lifecycle_state`). -/
structure DepSummary where
  id : String
  display_name : String
  lifecycle_state : String

/-- The kwargs assembled for `model.deploy`: the shape always, the optional
entries only when truthy (strings) or not `None` (numbers). -/
structure DeploySpec where
  display_name : String
  project_id : String
  compartment_id : String
  deployment_instance_shape : String
  subnet_id : Option String
  log_group : Option String
  access_log : Option String
  predict_log : Option String
  ocpus : Option Nat
  memory_in_gbs : Option Nat

/-- The `deployment.model_deployment` object (attributes read with `getattr`). -/
structure DeployedMD where
  id : Option String
  url : Option String

/-- External operations of `data_science_model_deployments`; `acquire` is the
`get_data_science_client()` call made before the dispatch; `from_id` is
`GenericModel.from_id(model_id)`. -/
structure ModelDeploymentsProvider where
  acquire : Res Unit
  list_model_deployments : String → Res (List DepSummary)
  from_id : String → Res Unit
  deploy : DeploySpec → Res DeployedMD
  activate_model_deployment : String → Res Unit
  deactivate_model_deployment : String → Res Unit
  delete_model_deployment : String → Res Unit

/-- The row dict built for each listed deployment. -/
def depRow (d : DepSummary) : Value :=
  .obj [("id", .str d.id), ("name", .str d.display_name),
        ("lifecycle_state", .str d.lifecycle_state)]

/-- `data_science_model_deployments(action, ...)`. -/
def data_science_model_deployments (P : ModelDeploymentsProvider) (action : String)
    (compartment_id project_id model_id display_name deployment_id : Option String)
    (subnet_id log_group access_log predict_log : Option String)
    (shape : String) (ocpus memory_in_gbs : Option Nat)
    (limit : Option Nat) : Res Payload :=
  match P.acquire with
  | .error e => .error e
  | .ok _ =>
    if action = "list" then
      match _require (valueOfStrOpt compartment_id) "compartment_id" action with
      | .error e => .error e
      | .ok _ =>
        match P.list_model_deployments (compartment_id.getD "") with
        | .error e => .error e
        | .ok deps =>
          .ok (_ok "model_deployments" action (.list (takeLimit limit (deps.map depRow)))
            [("compartment_id", valueOfStrOpt compartment_id)])
    else if action = "deploy" then
      match _require (valueOfStrOpt compartment_id) "compartment_id" action with
      | .error e => .error e
      | .ok _ =>
        match _require (valueOfStrOpt project_id) "project_id" action with
        | .error e => .error e
        | .ok _ =>
          match _require (valueOfStrOpt model_id) "model_id" action with
          | .error e => .error e
          | .ok _ =>
            match _require (valueOfStrOpt display_name) "display_name" action with
            | .error e => .error e
            | .ok _ =>
              match P.from_id (model_id.getD "") with
              | .error e => .error e
              | .ok _ =>
                match P.deploy
                    { display_name := display_name.getD ""
                      project_id := project_id.getD ""
                      compartment_id := compartment_id.getD ""
                      deployment_instance_shape := shape
                      subnet_id := if optTruthy subnet_id then subnet_id else none
                      log_group := if optTruthy log_group then log_group else none
                      access_log := if optTruthy access_log then access_log else none
                      predict_log := if optTruthy predict_log then predict_log else none
                      ocpus := ocpus
                      memory_in_gbs := memory_in_gbs } with
                | .error e => .error e
                | .ok md =>
                  .ok (_ok "model_deployments" action
                    (.obj [("deployment_id", valueOfStrOpt md.id),
                           ("url", valueOfStrOpt md.url)])
                    [("next_actions", .list
                      [.str ("data_science_model_deployments(action=" ++
                             qs "activate" ++ ")")])])
    else if action = "activate" then
      match _require (valueOfStrOpt deployment_id) "deployment_id" action with
      | .error e => .error e
      | .ok _ =>
        match P.activate_model_deployment (deployment_id.getD "") with
        | .error e => .error e
        | .ok _ =>
          .ok (_ok "model_deployments" action
            (.obj [("deployment_id", valueOfStrOpt deployment_id),
                   ("activate_requested", .bool true)]) [])
    else if action = "deactivate" then
      match _require (valueOfStrOpt deployment_id) "deployment_id" action with
      | .error e => .error e
      | .ok _ =>
        match P.deactivate_model_deployment (deployment_id.getD "") with
        | .error e => .error e
        | .ok _ =>
          .ok (_ok "model_deployments" action
            (.obj [("deployment_id", valueOfStrOpt deployment_id),
                   ("deactivate_requested", .bool true)]) [])
    else if action = "delete" then
      match _require (valueOfStrOpt deployment_id) "deployment_id" action with
      | .error e => .error e
      | .ok _ =>
        match P.delete_model_deployment (deployment_id.getD "") with
        | .error e => .error e
        | .ok _ =>
          .ok (_ok "model_deployments" action
            (.obj [("deployment_id", valueOfStrOpt deployment_id),
                   ("delete_requested", .bool true)]) [])
    else
      .error (unsupportedMsg action)

/-! ## Concrete providers, used to evaluate the tools at specific inputs -/

/-- A compartments provider with an empty tenancy. -/
def compProv1 : CompartmentsProvider :=
  { get_config := .ok (), list_compartments := .ok [] }

/-- A projects provider holding two projects. -/
def projProv1 : ProjectsProvider :=
  { init := .ok ()
    list_projects := .ok [⟨"p1", some "A", some "aa"⟩, ⟨"p2", some "B", some "bb"⟩]
    size := .ok 2
    create_project := fun _ _ _ => .ok ⟨some "p1", some "MyProj", some "desc"⟩
    update_project := fun _ _ => .ok ()
    delete_project := fun _ => .ok () }

/-- A model-catalog provider holding two models and two version sets. -/
def mcProv1 : ModelCatalogProvider :=
  { list_models := .ok
      [⟨some "m1", some "M1", some "vs", some "1", some "v1", some "p1", some "ACTIVE", none⟩,
       ⟨some "m2", some "M2", some "vs", some "2", some "v2", some "p2", some "ACTIVE", none⟩]
    list_models_by_project := fun _ => .ok []
    supports_project_filter := true
    from_id := fun _ => .ok ()
    download_artifact := fun _ _ => .ok ()
    list_files := fun _ => [("score.py", some 10)]
    acquire := .ok ()
    list_model_version_sets := fun _ => .ok [⟨"vs1", "VS1"⟩, ⟨"vs2", "VS2"⟩]
    mvs_from_id := fun _ => .ok (.obj [("id", .str "vs1"), ("name", .str "VS1")]) }

/-- A model-catalog provider whose `GenericModel.from_id` raises `boom` and
whose target directory ends up empty. -/
def mcProvFail : ModelCatalogProvider :=
  { list_models := .ok []
    list_models_by_project := fun _ => .ok []
    supports_project_filter := true
    from_id := fun _ => .error "boom"
    download_artifact := fun _ _ => .error "boom"
    list_files := fun _ => []
    acquire := .ok ()
    list_model_version_sets := fun _ => .ok []
    mvs_from_id := fun _ => .ok .null }

/-- A jobs provider with one job. -/
def jobsProv1 : JobsProvider :=
  { list_jobs := fun _ => .ok [⟨"j1", "A"⟩]
    job_details := fun _ => .ok (.obj [("id", .str "j1")])
    job_delete := fun _ => .ok ()
    create_script_job := fun _ => .ok (.obj [("job_id", .str "j1")])
    create_container_job := fun _ => .ok (.obj [("job_id", .str "j1")])
    acquire := .ok ()
    update_job := fun _ _ => .ok () }

/-- A job-runs provider whose run list is empty. -/
def jrProv1 : JobRunsProvider :=
  { acquire := .ok ()
    create_job_run := fun _ _ _ _ =>
      .ok ⟨some "jr1", some "ACCEPTED", none, .obj [("id", .str "jr1")]⟩
    list_job_runs := fun _ => .ok []
    get_job_run := fun _ => .ok ⟨"jr-by-id", .obj [("id", .str "jr-by-id")]⟩
    cancel_job_run := fun _ => .ok () }

/-- A job-runs provider returning two runs from every list call, whatever the
`limit` argument says. -/
def jrProv2 : JobRunsProvider :=
  { acquire := .ok ()
    create_job_run := fun _ _ _ _ =>
      .ok ⟨some "jr1", some "ACCEPTED", none, .obj [("id", .str "jr1")]⟩
    list_job_runs := fun _ =>
      .ok [⟨"jr1", .obj [("id", .str "jr1")]⟩, ⟨"jr2", .obj [("id", .str "jr2")]⟩]
    get_job_run := fun _ => .ok ⟨"jr-by-id", .obj [("id", .str "jr-by-id")]⟩
    cancel_job_run := fun _ => .ok () }

/-- A notebook-sessions provider with one session. -/
def nbProv1 : NotebookProvider :=
  { acquire := .ok ()
    list_notebook_sessions := fun _ => .ok [⟨"nb1", "NB1", "ACTIVE"⟩]
    create_notebook_session := fun _ =>
      .ok ⟨some "nb-created", some "NB", "2025-01-01T00:00:00Z", some "https://example/notebook"⟩
    activate_notebook_session := fun _ => .ok ()
    get_notebook_session := fun _ => .ok (some "https://example/notebook")
    deactivate_notebook_session := fun _ => .ok ()
    delete_notebook_session := fun _ => .ok () }

/-- A pipelines provider with two pipelines. -/
def plProv1 : PipelinesProvider :=
  { acquire := .ok ()
    list_pipelines := fun _ => .ok [⟨"pl1", "P1"⟩, ⟨"pl2", "P2"⟩]
    get_pipeline := fun _ => .ok (.obj [("id", .str "pl1")])
    delete_pipeline := fun _ => .ok () }

/-- A pipeline-runs provider returning two runs from every list call. -/
def prProv1 : PipelineRunsProvider :=
  { acquire := .ok ()
    create_pipeline_run := fun _ _ _ =>
      .ok ⟨some "pr1", some "ACCEPTED", .obj [("id", .str "pr1")]⟩
    list_pipeline_runs := fun _ =>
      .ok [⟨"pr1", .obj [("id", .str "pr1")]⟩, ⟨"pr2", .obj [("id", .str "pr2")]⟩]
    get_pipeline_run := fun _ => .ok ⟨"pr-by-id", .obj [("id", .str "pr-by-id")]⟩ }

/-- A model-deployments provider with two deployments. -/
def mdProv1 : ModelDeploymentsProvider :=
  { acquire := .ok ()
    list_model_deployments := fun _ => .ok [⟨"d1", "D1", "ACTIVE"⟩, ⟨"d2", "D2", "INACTIVE"⟩]
    from_id := fun _ => .ok ()
    deploy := fun _ => .ok ⟨some "dep1", some "https://example/predict"⟩
    activate_model_deployment := fun _ => .ok ()
    deactivate_model_deployment := fun _ => .ok ()
    delete_model_deployment := fun _ => .ok () }

/-- The three fixed payload fields set by `_ok`. -/
abbrev payloadOk (tag action : String) (p : Payload) : Prop :=
  dictGet p "resource" = some (Value.str tag) ∧
  dictGet p "action" = some (Value.str action) ∧
  (dictGet p "result").isSome = true

/-! ## Helper lemmas: every success payload echoes the resource tag and action -/

/-- Every success payload of `oci_ds_compartments` echoes tag and action. -/
theorem compartments_ok_payload (P : CompartmentsProvider) (action : String) (p : Payload)
    (h : oci_ds_compartments P action = .ok p) : payloadOk "compartments" action p := by
  unfold oci_ds_compartments at h
  repeat' split at h
  all_goals first
    | exact Except.noConfusion h
    | (injection h with h; subst h; exact ⟨rfl, rfl, rfl⟩)

/-- Every success payload of `data_science_projects` echoes tag and action. -/
theorem projects_ok_payload (P : ProjectsProvider) (action compartment_id : String)
    (project_id project_name project_description new_name new_description : Option String)
    (limit : Option Nat) (p : Payload)
    (h : data_science_projects P action compartment_id project_id project_name
        project_description new_name new_description limit = .ok p) :
    payloadOk "projects" action p := by
  unfold data_science_projects at h
  repeat' split at h
  all_goals first
    | exact Except.noConfusion h
    | (injection h with h; subst h; exact ⟨rfl, rfl, rfl⟩)

/-- Every success payload of `data_science_model_catalog` echoes tag and action. -/
theorem model_catalog_ok_payload (P : ModelCatalogProvider) (action compartment_id : String)
    (project_id model_id target_dir model_version_set_id : Option String)
    (limit : Option Nat) (p : Payload)
    (h : data_science_model_catalog P action compartment_id project_id model_id
        target_dir model_version_set_id limit = .ok p) :
    payloadOk "model_catalog" action p := by
  unfold data_science_model_catalog at h
  repeat' split at h
  all_goals first
    | exact Except.noConfusion h
    | (injection h with h; subst h; exact ⟨rfl, rfl, rfl⟩)

/-- Every success payload of `data_science_jobs` echoes tag and action. -/
theorem jobs_ok_payload (P : JobsProvider) (action : String)
    (compartment_id project_id job_id display_name script_path : Option String)
    (conda_env shape : String) (ocpus : Option Nat) (memory_in_gbs : Option Nat)
    (block_storage_size : Nat) (image new_display_name : Option String) (p : Payload)
    (h : data_science_jobs P action compartment_id project_id job_id display_name
        script_path conda_env shape ocpus memory_in_gbs block_storage_size image
        new_display_name = .ok p) :
    payloadOk "jobs" action p := by
  unfold data_science_jobs at h
  repeat' split at h
  all_goals first
    | exact Except.noConfusion h
    | (injection h with h; subst h; exact ⟨rfl, rfl, rfl⟩)

/-- Every success payload of `data_science_job_runs` echoes tag and action. -/
theorem job_runs_ok_payload (P : JobRunsProvider) (action : String)
    (compartment_id project_id job_id display_name job_run_id : Option String)
    (limit : Option Nat) (p : Payload)
    (h : data_science_job_runs P action compartment_id project_id job_id display_name
        job_run_id limit = .ok p) :
    payloadOk "job_runs" action p := by
  unfold data_science_job_runs at h
  repeat' split at h
  all_goals first
    | exact Except.noConfusion h
    | (injection h with h; subst h; exact ⟨rfl, rfl, rfl⟩)

/-- Every success payload of `data_science_notebook_sessions` echoes tag and action. -/
theorem notebook_sessions_ok_payload (P : NotebookProvider) (action : String)
    (compartment_id project_id notebook_session_id display_name : Option String)
    (shape : String) (block_storage_size_in_gbs : Nat)
    (subnet_id private_endpoint_id : Option String)
    (ocpus memory_in_gbs : Option Nat) (p : Payload)
    (h : data_science_notebook_sessions P action compartment_id project_id
        notebook_session_id display_name shape block_storage_size_in_gbs subnet_id
        private_endpoint_id ocpus memory_in_gbs = .ok p) :
    payloadOk "notebook_sessions" action p := by
  unfold data_science_notebook_sessions at h
  repeat' split at h
  all_goals first
    | exact Except.noConfusion h
    | (injection h with h; subst h; exact ⟨rfl, rfl, rfl⟩)

/-- Every success payload of `data_science_pipelines` echoes tag and action. -/
theorem pipelines_ok_payload (P : PipelinesProvider) (action : String)
    (compartment_id pipeline_id : Option String) (limit : Option Nat) (p : Payload)
    (h : data_science_pipelines P action compartment_id pipeline_id limit = .ok p) :
    payloadOk "pipelines" action p := by
  unfold data_science_pipelines at h
  repeat' split at h
  all_goals first
    | exact Except.noConfusion h
    | (injection h with h; subst h; exact ⟨rfl, rfl, rfl⟩)

/-- Every success payload of `data_science_pipeline_runs` echoes tag and action. -/
theorem pipeline_runs_ok_payload (P : PipelineRunsProvider) (action : String)
    (compartment_id pipeline_id display_name pipeline_run_id : Option String)
    (limit : Option Nat) (p : Payload)
    (h : data_science_pipeline_runs P action compartment_id pipeline_id display_name
        pipeline_run_id limit = .ok p) :
    payloadOk "pipeline_runs" action p := by
  unfold data_science_pipeline_runs at h
  repeat' split at h
  all_goals first
    | exact Except.noConfusion h
    | (injection h with h; subst h; exact ⟨rfl, rfl, rfl⟩)

/-- Every success payload of `data_science_model_deployments` echoes tag and action. -/
theorem model_deployments_ok_payload (P : ModelDeploymentsProvider) (action : String)
    (compartment_id project_id model_id display_name deployment_id : Option String)
    (subnet_id log_group access_log predict_log : Option String)
    (shape : String) (ocpus memory_in_gbs : Option Nat) (limit : Option Nat) (p : Payload)
    (h : data_science_model_deployments P action compartment_id project_id model_id
        display_name deployment_id subnet_id log_group access_log predict_log shape
        ocpus memory_in_gbs limit = .ok p) :
    payloadOk "model_deployments" action p := by
  unfold data_science_model_deployments at h
  repeat' split at h
  all_goals first
    | exact Except.noConfusion h
    | (injection h with h; subst h; exact ⟨rfl, rfl, rfl⟩)

/-- C5: for every tool and every invocation on which the tool returns a
success payload (in particular for every supported action whose validation
passes and whose provider calls succeed), the `resource` field of the payload
is the fixed resource tag of the tool, its `action` field is exactly the requested
action, and a `result` field is present. -/
theorem claim_C5 :
    (∀ (P : CompartmentsProvider) (action : String) (p : Payload),
       oci_ds_compartments P action = .ok p → payloadOk "compartments" action p) ∧
    (∀ (P : ProjectsProvider) (action compartment_id : String)
       (project_id project_name project_description new_name new_description : Option String)
       (limit : Option Nat) (p : Payload),
       data_science_projects P action compartment_id project_id project_name
           project_description new_name new_description limit = .ok p →
         payloadOk "projects" action p) ∧
    (∀ (P : ModelCatalogProvider) (action compartment_id : String)
       (project_id model_id target_dir model_version_set_id : Option String)
       (limit : Option Nat) (p : Payload),
       data_science_model_catalog P action compartment_id project_id model_id
           target_dir model_version_set_id limit = .ok p →
         payloadOk "model_catalog" action p) ∧
    (∀ (P : JobsProvider) (action : String)
       (compartment_id project_id job_id display_name script_path : Option String)
       (conda_env shape : String) (ocpus : Option Nat) (memory_in_gbs : Option Nat)
       (block_storage_size : Nat) (image new_display_name : Option String) (p : Payload),
       data_science_jobs P action compartment_id project_id job_id display_name
           script_path conda_env shape ocpus memory_in_gbs block_storage_size image
           new_display_name = .ok p →
         payloadOk "jobs" action p) ∧
    (∀ (P : JobRunsProvider) (action : String)
       (compartment_id project_id job_id display_name job_run_id : Option String)
       (limit : Option Nat) (p : Payload),
       data_science_job_runs P action compartment_id project_id job_id display_name
           job_run_id limit = .ok p →
         payloadOk "job_runs" action p) ∧
    (∀ (P : NotebookProvider) (action : String)
       (compartment_id project_id notebook_session_id display_name : Option String)
       (shape : String) (block_storage_size_in_gbs : Nat)
       (subnet_id private_endpoint_id : Option String)
       (ocpus memory_in_gbs : Option Nat) (p : Payload),
       data_science_notebook_sessions P action compartment_id project_id
           notebook_session_id display_name shape block_storage_size_in_gbs subnet_id
           private_endpoint_id ocpus memory_in_gbs = .ok p →
         payloadOk "notebook_sessions" action p) ∧
    (∀ (P : PipelinesProvider) (action : String)
       (compartment_id pipeline_id : Option String) (limit : Option Nat) (p : Payload),
       data_science_pipelines P action compartment_id pipeline_id limit = .ok p →
         payloadOk "pipelines" action p) ∧
    (∀ (P : PipelineRunsProvider) (action : String)
       (compartment_id pipeline_id display_name pipeline_run_id : Option String)
       (limit : Option Nat) (p : Payload),
       data_science_pipeline_runs P action compartment_id pipeline_id display_name
           pipeline_run_id limit = .ok p →
         payloadOk "pipeline_runs" action p) ∧
    (∀ (P : ModelDeploymentsProvider) (action : String)
       (compartment_id project_id model_id display_name deployment_id : Option String)
       (subnet_id log_group access_log predict_log : Option String)
       (shape : String) (ocpus memory_in_gbs : Option Nat) (limit : Option Nat) (p : Payload),
       data_science_model_deployments P action compartment_id project_id model_id
           display_name deployment_id subnet_id log_group access_log predict_log shape
           ocpus memory_in_gbs limit = .ok p →
         payloadOk "model_deployments" action p) :=
  ⟨compartments_ok_payload, projects_ok_payload, model_catalog_ok_payload,
   jobs_ok_payload, job_runs_ok_payload, notebook_sessions_ok_payload,
   pipelines_ok_payload, pipeline_runs_ok_payload, model_deployments_ok_payload⟩

/-- Witness for C5: one concrete success invocation per tool. -/
theorem claim_C5_witness :
    payloadOk "compartments" "list"
      [("resource", .str "compartments"), ("action", .str "list"),
       ("result", .obj [("by_name", .obj []), ("compartments", .list [])])] ∧
    payloadOk "projects" "count"
      [("resource", .str "projects"), ("action", .str "count"),
       ("result", .int 2), ("compartment_id", .str "c")] ∧
    payloadOk "model_catalog" "count"
      [("resource", .str "model_catalog"), ("action", .str "count"),
       ("result", .int 2), ("compartment_id", .str "c")] ∧
    payloadOk "jobs" "details"
      [("resource", .str "jobs"), ("action", .str "details"),
       ("result", .obj [("id", .str "j1")])] ∧
    payloadOk "job_runs" "status"
      [("resource", .str "job_runs"), ("action", .str "status"),
       ("result", .obj [("id", .str "jr-by-id")])] ∧
    payloadOk "notebook_sessions" "stop"
      [("resource", .str "notebook_sessions"), ("action", .str "stop"),
       ("result", .obj [("notebook_session_id", .str "nb1"), ("stopped", .bool true)])] ∧
    payloadOk "pipelines" "details"
      [("resource", .str "pipelines"), ("action", .str "details"),
       ("result", .obj [("id", .str "pl1")])] ∧
    payloadOk "pipeline_runs" "status"
      [("resource", .str "pipeline_runs"), ("action", .str "status"),
       ("result", .obj [("id", .str "pr-by-id")])] ∧
    payloadOk "model_deployments" "activate"
      [("resource", .str "model_deployments"), ("action", .str "activate"),
       ("result", .obj [("deployment_id", .str "dep1"), ("activate_requested", .bool true)])] := by
  obtain ⟨h1, h2, h3, h4, h5, h6, h7, h8, h9⟩ := claim_C5
  exact ⟨h1 compProv1 "list" _ rfl,
         h2 projProv1 "count" "c" none none none none none none _ rfl,
         h3 mcProv1 "count" "c" none none none none none _ rfl,
         h4 jobsProv1 "details" none none (some "j1") none none
           "generalml_p311_cpu_x86_64_v1" "VM.Standard2.2" none none 50 none none _ rfl,
         h5 jrProv1 "status" none none none none (some "jr-by-id") none _ rfl,
         h6 nbProv1 "stop" none none (some "nb1") none "VM.Standard2.1" 50 none none
           none none _ rfl,
         h7 plProv1 "details" none (some "pl1") none _ rfl,
         h8 prProv1 "status" (some "c") (some "pl1") none (some "pr-by-id") none _ rfl,
         h9 mdProv1 "activate" none none none none (some "dep1") none none none none
           "VM.Standard.E2.1" none none none _ rfl⟩
/-- `isBlank` holds exactly on `None` and on whitespace-only (or empty) strings. -/
theorem isBlank_eq_true_iff (v : Value) :
    isBlank v = true ↔ (v = Value.null ∨ ∃ s, v = Value.str s ∧ strBlank s = true) := by
  cases v <;> simp [isBlank]

/-- C6: `_require` raises exactly the message
`Missing required parameter <name> for action=<action>.` if and only if the
value is `None` or a whitespace-only (possibly empty) string; on every other
value, including non-string values such as `0` and `False`, it returns
without effect. -/
theorem claim_C6 (v : Value) (name action : String) :
    ((_require v name action = Except.error (requireMsg name action))
       ↔ (v = Value.null ∨ ∃ s, v = Value.str s ∧ strBlank s = true))
    ∧ ((_require v name action = Except.ok ())
       ↔ ¬(v = Value.null ∨ ∃ s, v = Value.str s ∧ strBlank s = true))
    ∧ _require (Value.int 0) name action = Except.ok ()
    ∧ _require (Value.bool false) name action = Except.ok () := by
  refine ⟨?_, ?_, rfl, rfl⟩ <;>
    (rw [← isBlank_eq_true_iff]
     unfold _require
     by_cases hb : isBlank v = true)
  · rw [if_pos hb]; simp [hb]
  · rw [if_neg hb]; simp [hb]
  · rw [if_pos hb]; simp [hb]
  · rw [if_neg hb]; simp [hb]

/-- Witness for C6: `None` and a whitespace string fail with the message,
a plain string and the integer `0` succeed. -/
theorem claim_C6_witness :
    _require Value.null "x" "a" = Except.error (requireMsg "x" "a") ∧
    _require (Value.str "   ") "x" "a" = Except.error (requireMsg "x" "a") ∧
    _require (Value.str "v") "x" "a" = Except.ok () ∧
    _require (Value.int 0) "x" "a" = Except.ok () := by
  refine ⟨?_, ?_, ?_, ?_⟩
  · exact (claim_C6 Value.null "x" "a").1.mpr (Or.inl rfl)
  · exact (claim_C6 (Value.str "   ") "x" "a").1.mpr (Or.inr ⟨"   ", rfl, rfl⟩)
  · refine (claim_C6 (Value.str "v") "x" "a").2.1.mpr ?_
    rintro (h | ⟨s, hs, hb⟩)
    · exact Value.noConfusion h
    · injection hs with h2
      subst h2
      exact absurd hb (by decide)
  · exact (claim_C6 (Value.int 0) "x" "a").2.2.1

/-- C7: `_at_least_one` raises exactly the message
`At least one of [<names, in order>] must be provided for action=<action>.`
if and only if every value is `None` or a whitespace-only string; otherwise
it returns without effect. -/
theorem claim_C7 (pairs : List (String × Value)) (action : String) :
    ((_at_least_one pairs action
        = .error (atLeastOneMsg (String.intercalate ", " (pairs.map (fun p => p.1))) action))
       ↔ ∀ q ∈ pairs, q.2 = Value.null ∨ ∃ s, q.2 = Value.str s ∧ strBlank s = true)
    ∧ ((_at_least_one pairs action = .ok ())
       ↔ ∃ q ∈ pairs, ¬(q.2 = Value.null ∨ ∃ s, q.2 = Value.str s ∧ strBlank s = true)) := by
  unfold _at_least_one
  by_cases hany : pairs.any (fun p => !isBlank p.2) = true
  · obtain ⟨q, hq, hb⟩ := List.any_eq_true.mp hany
    have hqn : ¬(q.2 = Value.null ∨ ∃ s, q.2 = Value.str s ∧ strBlank s = true) := by
      rw [← isBlank_eq_true_iff]
      simp only [Bool.not_eq_true', Bool.not_eq_true] at hb ⊢
      exact hb
    rw [if_pos hany]
    constructor
    · exact iff_of_false (by simp) (fun hall => hqn (hall q hq))
    · exact iff_of_true rfl ⟨q, hq, hqn⟩
  · have hall : ∀ q ∈ pairs, q.2 = Value.null ∨ ∃ s, q.2 = Value.str s ∧ strBlank s = true := by
      intro q hq
      rw [← isBlank_eq_true_iff]
      by_contra hfalse
      refine hany (List.any_eq_true.mpr ⟨q, hq, ?_⟩)
      simp only [Bool.not_eq_true] at hfalse
      simp [hfalse]
    rw [if_neg hany]
    constructor
    · exact iff_of_true rfl hall
    · exact iff_of_false (by simp) (fun ⟨q, hq, hqn⟩ => hqn (hall q hq))

/-- Witness for C7: `("a", None), ("b", "")` fails with the joined-name
message; `("a", None), ("b", "v")` succeeds. -/
theorem claim_C7_witness :
    _at_least_one [("a", Value.null), ("b", Value.str "")] "x"
      = .error (atLeastOneMsg "a, b" "x") ∧
    _at_least_one [("a", Value.null), ("b", Value.str "v")] "x" = .ok () := by
  constructor
  · refine (claim_C7 [("a", Value.null), ("b", Value.str "")] "x").1.mpr ?_
    intro q hq
    rcases List.mem_cons.mp hq with rfl | hq2
    · exact Or.inl rfl
    · rcases List.mem_cons.mp hq2 with rfl | h3
      · exact Or.inr ⟨"", rfl, rfl⟩
      · exact absurd h3 (List.not_mem_nil q)
  · refine (claim_C7 [("a", Value.null), ("b", Value.str "v")] "x").2.mpr ?_
    refine ⟨("b", Value.str "v"), by simp, ?_⟩
    rintro (h | ⟨s, hs, hb⟩)
    · exact Value.noConfusion h
    · injection hs with h2
      subst h2
      exact absurd hb (by decide)

/-- Assigning a key not present in the dict appends the entry. -/
theorem dictInsert_fresh (d : Payload) (k : String) (v : Value)
    (h : ∀ q ∈ d, q.1 ≠ k) : dictInsert d k v = d ++ [(k, v)] := by
  unfold dictInsert
  rw [if_neg]
  simp only [List.any_eq_true, not_exists, not_and]
  intro q hq
  simp [h q hq]

/-- Updating a dict with entries whose keys are fresh and pairwise distinct
appends them in order. -/
theorem dictUpdate_append (d : Payload) (l : Payload)
    (hfresh : ∀ q ∈ l, ∀ p ∈ d, p.1 ≠ q.1)
    (hnodup : (l.map Prod.fst).Nodup) :
    dictUpdate d l = d ++ l := by
  induction l generalizing d with
  | nil => simp [dictUpdate]
  | cons q t ih =>
    have hstep : dictUpdate d (q :: t) = dictUpdate (dictInsert d q.1 q.2) t := rfl
    rw [hstep, dictInsert_fresh d q.1 q.2 (fun p hp => hfresh q (List.mem_cons_self q t) p hp)]
    rw [ih (d ++ [(q.1, q.2)]) ?_ ?_]
    · simp
    · intro r hr p hp
      rcases List.mem_append.mp hp with hpd | hpq
      · exact hfresh r (List.mem_cons_of_mem q hr) p hpd
      · have : p = (q.1, q.2) := by simpa using hpq
        subst this
        simp only [List.map_cons, List.nodup_cons] at hnodup
        intro hcon
        exact hnodup.1 (hcon ▸ List.mem_map_of_mem Prod.fst hr)
    · simp only [List.map_cons, List.nodup_cons] at hnodup
      exact hnodup.2

/-- Counterexample for C2 as stated: in the dict merge of the body, an extra entry
named `resource` overwrites the fixed field, so the fixed field does not win. -/
theorem claim_C2_cex :
    dictGet (_ok "r" "a" Value.null [("resource", Value.str "x")]) "resource"
        = some (Value.str "x") ∧
    some (Value.str "x") ≠ some (Value.str "r") := by
  refine ⟨rfl, ?_⟩
  intro h
  injection h with h1
  injection h1 with h2
  exact absurd h2 (by decide)

/-- C2 (amended): when the extra mapping contains no key named `resource`,
`action` or `result` and its keys are pairwise distinct (as Python keyword
arguments are), `_ok` returns exactly the three fixed fields, equal to its
arguments, followed by all extra entries at the top level.  On a colliding
key the `payload.update(extra)` merge would let the extra value win (and the
Python call itself rejects such keyword arguments with a `TypeError`); the
fixed field never wins. -/
theorem claim_C2 (resource action : String) (result : Value) (extra : Payload)
    (hdisj : ∀ q ∈ extra, q.1 ≠ "resource" ∧ q.1 ≠ "action" ∧ q.1 ≠ "result")
    (hnodup : (extra.map Prod.fst).Nodup) :
    _ok resource action result extra
      = ("resource", Value.str resource) :: ("action", Value.str action)
          :: ("result", result) :: extra := by
  unfold _ok
  rw [dictUpdate_append _ _ ?_ hnodup]
  · rfl
  · intro q hq p hp
    obtain ⟨h1, h2, h3⟩ := hdisj q hq
    simp only [List.mem_cons, List.not_mem_nil, or_false] at hp
    rcases hp with rfl | rfl | rfl
    · exact fun hc => h1 hc.symm
    · exact fun hc => h2 hc.symm
    · exact fun hc => h3 hc.symm

/-- Witness for C2 (amended): a `message` extra entry lands after the three
fixed fields, which equal the arguments. -/
theorem claim_C2_witness :
    _ok "job_runs" "status" Value.null [("message", Value.str "No job runs found.")]
      = [("resource", Value.str "job_runs"), ("action", Value.str "status"),
         ("result", Value.null), ("message", Value.str "No job runs found.")] := by
  refine claim_C2 "job_runs" "status" Value.null _ ?_ ?_
  · intro q hq
    have : q = ("message", Value.str "No job runs found.") := by simpa using hq
    subst this
    refine ⟨?_, ?_, ?_⟩ <;> decide
  · simp

/-- C1 (evaluation at the failing input): with a provider whose
`GenericModel.from_id` raises `boom`, `model_catalog` action `download`
returns a success payload instead of re-raising: the inner `try/except`
around the download swallows the exception, only logs it, and the branch
falls through to `_ok` with a file listing of the (empty) target directory. -/
theorem claim_C1 :
    data_science_model_catalog mcProvFail "download" "c" none (some "m1") (some "/tmp/out")
        none none
      = Except.ok [("resource", Value.str "model_catalog"), ("action", Value.str "download"),
                   ("result", Value.obj [("artifact_dir", Value.str "/tmp/out"),
                                         ("downloaded_files", Value.list []),
                                         ("downloaded_files_count", Value.int 0)]),
                   ("compartment_id", Value.str "c")] := rfl

/-- C4: for `job_runs` action `status` or `cancel` with no explicit
`job_run_id`, when the sorted limit-1 child listing from the provider for the given
`compartment_id` and `job_id` is empty, the tool returns a success payload
(no exception) with `result` equal to null and an explanatory `message`:
`No job runs found.` for status, `No job runs found to cancel.` for cancel. -/
theorem claim_C4 :
    (∀ (P : JobRunsProvider) (cid jid : String),
       P.acquire = .ok () → strBlank cid = false → strBlank jid = false →
       P.list_job_runs ⟨cid, some jid, some 1, some "timeCreated", some "DESC"⟩ = .ok [] →
       data_science_job_runs P "status" (some cid) none (some jid) none none none
         = .ok [("resource", .str "job_runs"), ("action", .str "status"),
                ("result", .null), ("message", .str "No job runs found.")]) ∧
    (∀ (P : JobRunsProvider) (cid jid : String),
       P.acquire = .ok () → strBlank cid = false → strBlank jid = false →
       P.list_job_runs ⟨cid, some jid, some 1, some "timeCreated", some "DESC"⟩ = .ok [] →
       data_science_job_runs P "cancel" (some cid) none (some jid) none none none
         = .ok [("resource", .str "job_runs"), ("action", .str "cancel"),
                ("result", .null), ("message", .str "No job runs found to cancel.")]) := by
  constructor <;>
    (intro P cid jid hacq hcid hjid hlist
     unfold data_science_job_runs
     rw [hacq]
     simp only [valueOfStrOpt, _require, isBlank, hcid, hjid, optTruthy, Option.getD_some]
     simp [hlist, _ok, dictUpdate, dictInsert])

/-- Witness for C4: the empty-history provider at `compartment_id=c`,
`job_id=j`. -/
theorem claim_C4_witness :
    data_science_job_runs jrProv1 "status" (some "c") none (some "j") none none none
      = .ok [("resource", .str "job_runs"), ("action", .str "status"),
             ("result", .null), ("message", .str "No job runs found.")] ∧
    data_science_job_runs jrProv1 "cancel" (some "c") none (some "j") none none none
      = .ok [("resource", .str "job_runs"), ("action", .str "cancel"),
             ("result", .null), ("message", .str "No job runs found to cancel.")] :=
  ⟨claim_C4.1 jrProv1 "c" "j" rfl rfl rfl rfl,
   claim_C4.2 jrProv1 "c" "j" rfl rfl rfl rfl⟩

/-- C9: for `notebook_sessions` action `create` with all required parameters
present, a flexible shape with `ocpus` or `memory_in_gbs` absent raises the
flexible-shape validation error, for every provider create function (so
before any provider create call); when both are provided, the create call
receives a shape config carrying exactly those two values and the tool
returns the payload built from the provider response. -/
theorem claim_C9 :
    (∀ (P : NotebookProvider) (cid pid dn shape : String) (bss : Nat)
       (subnet_id private_endpoint_id : Option String) (ocpus memory_in_gbs : Option Nat),
       P.acquire = .ok () →
       strBlank cid = false → strBlank pid = false → strBlank dn = false →
       flexShapes.contains shape = true →
       (ocpus = none ∨ memory_in_gbs = none) →
       data_science_notebook_sessions P "create" (some cid) (some pid) none (some dn)
           shape bss subnet_id private_endpoint_id ocpus memory_in_gbs
         = .error flexMsg) ∧
    (∀ (shape : String) (bss : Nat) (subnet_id private_endpoint_id : Option String)
       (o m : Nat),
       (nbConfigOf shape bss subnet_id private_endpoint_id (some o) (some m)).shape_config
         = some (o, m)) ∧
    (∀ (P : NotebookProvider) (cid pid dn shape : String) (bss : Nat)
       (subnet_id private_endpoint_id : Option String) (o m : Nat) (d : NbCreated),
       P.acquire = .ok () →
       strBlank cid = false → strBlank pid = false → strBlank dn = false →
       P.create_notebook_session
           ⟨dn, pid, cid, nbConfigOf shape bss subnet_id private_endpoint_id (some o) (some m)⟩
         = .ok d →
       data_science_notebook_sessions P "create" (some cid) (some pid) none (some dn)
           shape bss subnet_id private_endpoint_id (some o) (some m)
         = .ok (_ok "notebook_sessions" "create"
             (.obj [("id", valueOfStrOpt d.id),
                    ("display_name", valueOfStrOpt d.display_name),
                    ("time_created", .str d.time_created),
                    ("notebook_session_url", valueOfStrOpt d.notebook_session_url)])
             [("next_actions", .list
               [.str ("data_science_notebook_sessions(action=" ++ qs "activate" ++ ")")])])) := by
  refine ⟨?_, ?_, ?_⟩
  · intro P cid pid dn shape bss subnet_id private_endpoint_id ocpus memory_in_gbs
      hacq hcid hpid hdn hflex hmem
    unfold data_science_notebook_sessions
    rw [hacq]
    simp only [valueOfStrOpt, _require, isBlank, hcid, hpid, hdn, hflex, Option.getD_some]
    rcases hmem with rfl | rfl <;> simp
  · intro shape bss subnet_id private_endpoint_id o m
    rfl
  · intro P cid pid dn shape bss subnet_id private_endpoint_id o m d
      hacq hcid hpid hdn hcreate
    unfold data_science_notebook_sessions
    rw [hacq]
    simp only [valueOfStrOpt, _require, isBlank, hcid, hpid, hdn, Option.getD_some,
      Option.isNone_some, Bool.or_self, Bool.and_false]
    simp [hcreate]

/-- Witness for C9: `VM.Standard.E5.Flex` with only `ocpus` fails; with
`ocpus=2`, `memory_in_gbs=16` the creation proceeds with that shape config. -/
theorem claim_C9_witness :
    data_science_notebook_sessions nbProv1 "create" (some "c") (some "p") none (some "nb")
        "VM.Standard.E5.Flex" 50 none none (some 2) none = .error flexMsg ∧
    (nbConfigOf "VM.Standard.E5.Flex" 50 none none (some 2) (some 16)).shape_config
      = some (2, 16) ∧
    data_science_notebook_sessions nbProv1 "create" (some "c") (some "p") none (some "nb")
        "VM.Standard.E5.Flex" 50 none none (some 2) (some 16)
      = .ok (_ok "notebook_sessions" "create"
          (.obj [("id", .str "nb-created"), ("display_name", .str "NB"),
                 ("time_created", .str "2025-01-01T00:00:00Z"),
                 ("notebook_session_url", .str "https://example/notebook")])
          [("next_actions", .list
            [.str ("data_science_notebook_sessions(action=" ++ qs "activate" ++ ")")])]) :=
  ⟨claim_C9.1 nbProv1 "c" "p" "nb" "VM.Standard.E5.Flex" 50 none none (some 2) none
     rfl rfl rfl rfl rfl (Or.inr rfl),
   claim_C9.2.1 "VM.Standard.E5.Flex" 50 none none 2 16,
   claim_C9.2.2 nbProv1 "c" "p" "nb" "VM.Standard.E5.Flex" 50 none none 2 16 _
     rfl rfl rfl rfl rfl⟩

/-- C10: `pipeline_runs` validates `compartment_id` and `pipeline_id`
before dispatching on the action: with `compartment_id` absent or blank the
tool raises the validation message naming `compartment_id`; with
`compartment_id` present and `pipeline_id` absent or blank it raises the
message naming `pipeline_id` — for every action string, including `status`
with an explicit `pipeline_run_id` and unsupported action names. -/
theorem claim_C10 :
    (∀ (P : PipelineRunsProvider) (action : String)
       (compartment_id pipeline_id display_name pipeline_run_id : Option String)
       (limit : Option Nat),
       isBlank (valueOfStrOpt compartment_id) = true →
       data_science_pipeline_runs P action compartment_id pipeline_id display_name
           pipeline_run_id limit = .error (requireMsg "compartment_id" action)) ∧
    (∀ (P : PipelineRunsProvider) (action cid : String)
       (pipeline_id display_name pipeline_run_id : Option String) (limit : Option Nat),
       strBlank cid = false →
       isBlank (valueOfStrOpt pipeline_id) = true →
       data_science_pipeline_runs P action (some cid) pipeline_id display_name
           pipeline_run_id limit = .error (requireMsg "pipeline_id" action)) := by
  constructor
  · intro P action compartment_id pipeline_id display_name pipeline_run_id limit h
    unfold data_science_pipeline_runs
    simp [_require, h]
  · intro P action cid pipeline_id display_name pipeline_run_id limit hcid h
    unfold data_science_pipeline_runs
    simp only [_require, h, if_true]
    simp [valueOfStrOpt, isBlank, hcid]

/-- Witness for C10: `status` with an explicit `pipeline_run_id` but no
`compartment_id`, and an unsupported action with no `pipeline_id`. -/
theorem claim_C10_witness :
    data_science_pipeline_runs prProv1 "status" none (some "pl1") none (some "pr-by-id") none
      = .error (requireMsg "compartment_id" "status") ∧
    data_science_pipeline_runs prProv1 "bogus" (some "c") none none none none
      = .error (requireMsg "pipeline_id" "bogus") :=
  ⟨claim_C10.1 prProv1 "status" none (some "pl1") none (some "pr-by-id") none rfl,
   claim_C10.2 prProv1 "bogus" "c" none none none none rfl rfl⟩

/-- Counterexample for C3 as stated: `job_runs` list with `limit = 1` against
a provider returning two runs yields a payload whose `result` has two
entries, not `limit` entries — the limit is forwarded to the provider and no
client-side truncation happens. -/
theorem claim_C3_cex :
    data_science_job_runs jrProv2 "list" (some "c") none none none none (some 1)
      = .ok [("resource", .str "job_runs"), ("action", .str "list"),
             ("result", .list [.obj [("id", .str "jr1")], .obj [("id", .str "jr2")]])] ∧
    [Value.obj [("id", Value.str "jr1")], Value.obj [("id", Value.str "jr2")]].length = 2 ∧
    (2 : Nat) ≠ 1 := by
  refine ⟨rfl, rfl, by decide⟩

/-- C3 (amended): the projects, model-catalog, pipelines and model-deployments
listing actions fetch the provider result set and truncate client-side to the
first `limit` entries (a prefix take of the provider order); the `job_runs`
and `pipeline_runs` list actions instead forward `limit` to the provider call
and return every entry the provider gives back, unmodified. -/
theorem claim_C3 :
    (∀ (P : ProjectsProvider) (cid : String) (l : Nat) (rows : List ProjectRec),
       P.init = .ok () → P.list_projects = .ok rows →
       data_science_projects P "list" cid none none none none none (some l)
         = .ok (_ok "projects" "list" (.list ((rows.map projectRow).take l))
             [("compartment_id", .str cid)])) ∧
    (∀ (P : ModelCatalogProvider) (cid : String) (l : Nat) (ms : List CatModel),
       P.list_models = .ok ms →
       data_science_model_catalog P "list_models" cid none none none none (some l)
         = .ok (_ok "model_catalog" "list_models" (.list ((ms.map modelRow).take l))
             [("compartment_id", .str cid)])) ∧
    (∀ (P : ModelCatalogProvider) (cid : String) (l : Nat) (vs : List MVS),
       P.acquire = .ok () → P.list_model_version_sets cid = .ok vs →
       data_science_model_catalog P "list_version_sets" cid none none none none (some l)
         = .ok (_ok "model_catalog" "list_version_sets" (.list ((vs.map mvsRow).take l))
             [("compartment_id", .str cid)])) ∧
    (∀ (P : PipelinesProvider) (cid : String) (l : Nat) (ps : List PipelineSummary),
       P.acquire = .ok () → strBlank cid = false → P.list_pipelines cid = .ok ps →
       data_science_pipelines P "list" (some cid) none (some l)
         = .ok (_ok "pipelines" "list" (.list ((ps.map pipelineRow).take l))
             [("compartment_id", .str cid)])) ∧
    (∀ (P : ModelDeploymentsProvider) (cid : String) (l : Nat) (ds : List DepSummary),
       P.acquire = .ok () → strBlank cid = false → P.list_model_deployments cid = .ok ds →
       data_science_model_deployments P "list" (some cid) none none none none none none
           none none "VM.Standard.E2.1" none none (some l)
         = .ok (_ok "model_deployments" "list" (.list ((ds.map depRow).take l))
             [("compartment_id", .str cid)])) ∧
    (∀ (P : JobRunsProvider) (cid : String) (l : Nat) (runs : List RunItem),
       P.acquire = .ok () → strBlank cid = false →
       P.list_job_runs ⟨cid, none, some l, none, none⟩ = .ok runs →
       data_science_job_runs P "list" (some cid) none none none none (some l)
         = .ok (_ok "job_runs" "list" (.list (runs.map RunItem.raw)) [])) ∧
    (∀ (P : PipelineRunsProvider) (cid pid : String) (l : Nat) (runs : List RunItem),
       strBlank cid = false → strBlank pid = false → P.acquire = .ok () →
       P.list_pipeline_runs ⟨cid, pid, some l, none, none⟩ = .ok runs →
       data_science_pipeline_runs P "list" (some cid) (some pid) none none (some l)
         = .ok (_ok "pipeline_runs" "list" (.list (runs.map RunItem.raw)) [])) := by
  refine ⟨?_, ?_, ?_, ?_, ?_, ?_, ?_⟩
  · intro P cid l rows hinit hlist
    unfold data_science_projects
    rw [hinit]
    simp [hlist, takeLimit]
  · intro P cid l ms hlist
    unfold data_science_model_catalog
    simp [hlist, takeLimit, optTruthy]
  · intro P cid l vs hacq hlist
    unfold data_science_model_catalog
    rw [hacq]
    simp [hlist, takeLimit]
  · intro P cid l ps hacq hcid hlist
    unfold data_science_pipelines
    rw [hacq]
    simp only [valueOfStrOpt, _require, isBlank, hcid, Option.getD_some]
    simp [hlist, takeLimit]
  · intro P cid l ds hacq hcid hlist
    unfold data_science_model_deployments
    rw [hacq]
    simp only [valueOfStrOpt, _require, isBlank, hcid, Option.getD_some]
    simp [hlist, takeLimit]
  · intro P cid l runs hacq hcid hlist
    unfold data_science_job_runs
    rw [hacq]
    simp only [valueOfStrOpt, _require, isBlank, hcid, optTruthy, Option.getD_some]
    simp [hlist]
  · intro P cid pid l runs hcid hpid hacq hlist
    unfold data_science_pipeline_runs
    simp only [valueOfStrOpt, _require, isBlank, hcid, hpid, Option.getD_some]
    rw [hacq]
    simp [hlist]

/-- Witness for C3 (amended): with two-element providers and `limit = 1`,
the truncating listings return one row; the `job_runs` and `pipeline_runs`
listings return both rows. -/
theorem claim_C3_witness :
    data_science_projects projProv1 "list" "c" none none none none none (some 1)
      = .ok [("resource", .str "projects"), ("action", .str "list"),
             ("result", .list [.obj [("project_id", .str "p1"), ("project_name", .str "A"),
                                     ("project_description", .str "aa")]]),
             ("compartment_id", .str "c")] ∧
    data_science_model_catalog mcProv1 "list_models" "c" none none none none (some 1)
      = .ok [("resource", .str "model_catalog"), ("action", .str "list_models"),
             ("result", .list [.obj [("model_id", .str "m1"), ("display_name", .str "M1"),
                                     ("model_version_set", .str "vs"),
                                     ("model_version_label", .str "1"),
                                     ("model_version_id", .str "v1"),
                                     ("project_id", .str "p1"),
                                     ("lifecycle_state", .str "ACTIVE"),
                                     ("time_created", .null)]]),
             ("compartment_id", .str "c")] ∧
    data_science_model_catalog mcProv1 "list_version_sets" "c" none none none none (some 1)
      = .ok [("resource", .str "model_catalog"), ("action", .str "list_version_sets"),
             ("result", .list [.obj [("id", .str "vs1"), ("name", .str "VS1")]]),
             ("compartment_id", .str "c")] ∧
    data_science_pipelines plProv1 "list" (some "c") none (some 1)
      = .ok [("resource", .str "pipelines"), ("action", .str "list"),
             ("result", .list [.obj [("id", .str "pl1"), ("name", .str "P1")]]),
             ("compartment_id", .str "c")] ∧
    data_science_model_deployments mdProv1 "list" (some "c") none none none none none none
        none none "VM.Standard.E2.1" none none (some 1)
      = .ok [("resource", .str "model_deployments"), ("action", .str "list"),
             ("result", .list [.obj [("id", .str "d1"), ("name", .str "D1"),
                                     ("lifecycle_state", .str "ACTIVE")]]),
             ("compartment_id", .str "c")] ∧
    data_science_job_runs jrProv2 "list" (some "c") none none none none (some 1)
      = .ok [("resource", .str "job_runs"), ("action", .str "list"),
             ("result", .list [.obj [("id", .str "jr1")], .obj [("id", .str "jr2")]])] ∧
    data_science_pipeline_runs prProv1 "list" (some "c") (some "pl1") none none (some 1)
      = .ok [("resource", .str "pipeline_runs"), ("action", .str "list"),
             ("result", .list [.obj [("id", .str "pr1")], .obj [("id", .str "pr2")]])] := by
  obtain ⟨h1, h2, h3, h4, h5, h6, h7⟩ := claim_C3
  exact ⟨h1 projProv1 "c" 1 _ rfl rfl,
         h2 mcProv1 "c" 1 _ rfl,
         h3 mcProv1 "c" 1 _ rfl rfl,
         h4 plProv1 "c" 1 _ rfl rfl rfl,
         h5 mdProv1 "c" 1 _ rfl rfl rfl,
         h6 jrProv2 "c" 1 _ rfl rfl rfl,
         h7 prProv1 "c" "pl1" 1 _ rfl rfl rfl rfl⟩

/-- Counterexample for C8 as stated: the compartments tool performs no action
dispatch, so invoked with the out-of-set action `bogus` it returns a success
payload carrying a `result` field instead of raising an unsupported-action
error. -/
theorem claim_C8_cex :
    oci_ds_compartments compProv1 "bogus"
      = .ok [("resource", .str "compartments"), ("action", .str "bogus"),
             ("result", .obj [("by_name", .obj []), ("compartments", .list [])])] ∧
    (dictGet [("resource", Value.str "compartments"), ("action", Value.str "bogus"),
              ("result", Value.obj [("by_name", Value.obj []), ("compartments", Value.list [])])]
        "result").isSome = true :=
  ⟨rfl, rfl⟩

/-- C8 (amended): for the eight action-dispatching tools, an action outside
the fixed action set of the resource raises exactly `Unsupported action=<action>` once
the steps the source runs before the dispatch succeed: the pre-dispatch
provider construction for projects, job_runs, notebook_sessions, pipelines
and model_deployments, and the pre-dispatch `compartment_id`/`pipeline_id`
validation for pipeline_runs; the compartments tool performs no dispatch and
returns a success payload whatever the action. -/
theorem claim_C8 :
    (∀ (P : ProjectsProvider) (action cid : String)
       (project_id project_name project_description new_name new_description : Option String)
       (limit : Option Nat),
       P.init = .ok () →
       action ∉ (["create", "list", "update", "delete", "count"] : List String) →
       data_science_projects P action cid project_id project_name project_description
           new_name new_description limit = .error (unsupportedMsg action)) ∧
    (∀ (P : ModelCatalogProvider) (action cid : String)
       (project_id model_id target_dir model_version_set_id : Option String)
       (limit : Option Nat),
       action ∉ (["list_models", "download", "count", "list_version_sets",
                  "version_set_attributes"] : List String) →
       data_science_model_catalog P action cid project_id model_id target_dir
           model_version_set_id limit = .error (unsupportedMsg action)) ∧
    (∀ (P : JobsProvider) (action : String)
       (compartment_id project_id job_id display_name script_path : Option String)
       (conda_env shape : String) (ocpus : Option Nat) (memory_in_gbs : Option Nat)
       (block_storage_size : Nat) (image new_display_name : Option String),
       action ∉ (["create_script", "create_container", "list", "details", "update",
                  "delete"] : List String) →
       data_science_jobs P action compartment_id project_id job_id display_name
           script_path conda_env shape ocpus memory_in_gbs block_storage_size image
           new_display_name = .error (unsupportedMsg action)) ∧
    (∀ (P : JobRunsProvider) (action : String)
       (compartment_id project_id job_id display_name job_run_id : Option String)
       (limit : Option Nat),
       P.acquire = .ok () →
       action ∉ (["start", "list", "status", "cancel"] : List String) →
       data_science_job_runs P action compartment_id project_id job_id display_name
           job_run_id limit = .error (unsupportedMsg action)) ∧
    (∀ (P : NotebookProvider) (action : String)
       (compartment_id project_id notebook_session_id display_name : Option String)
       (shape : String) (block_storage_size_in_gbs : Nat)
       (subnet_id private_endpoint_id : Option String) (ocpus memory_in_gbs : Option Nat),
       P.acquire = .ok () →
       action ∉ (["create", "activate", "stop", "delete", "list"] : List String) →
       data_science_notebook_sessions P action compartment_id project_id
           notebook_session_id display_name shape block_storage_size_in_gbs subnet_id
           private_endpoint_id ocpus memory_in_gbs = .error (unsupportedMsg action)) ∧
    (∀ (P : PipelinesProvider) (action : String)
       (compartment_id pipeline_id : Option String) (limit : Option Nat),
       P.acquire = .ok () →
       action ∉ (["list", "details", "delete"] : List String) →
       data_science_pipelines P action compartment_id pipeline_id limit
         = .error (unsupportedMsg action)) ∧
    (∀ (P : PipelineRunsProvider) (action cid pid : String)
       (display_name pipeline_run_id : Option String) (limit : Option Nat),
       strBlank cid = false → strBlank pid = false → P.acquire = .ok () →
       action ∉ (["start", "status", "list"] : List String) →
       data_science_pipeline_runs P action (some cid) (some pid) display_name
           pipeline_run_id limit = .error (unsupportedMsg action)) ∧
    (∀ (P : ModelDeploymentsProvider) (action : String)
       (compartment_id project_id model_id display_name deployment_id : Option String)
       (subnet_id log_group access_log predict_log : Option String)
       (shape : String) (ocpus memory_in_gbs : Option Nat) (limit : Option Nat),
       P.acquire = .ok () →
       action ∉ (["deploy", "activate", "deactivate", "delete", "list"] : List String) →
       data_science_model_deployments P action compartment_id project_id model_id
           display_name deployment_id subnet_id log_group access_log predict_log shape
           ocpus memory_in_gbs limit = .error (unsupportedMsg action)) := by
  refine ⟨?_, ?_, ?_, ?_, ?_, ?_, ?_, ?_⟩
  · intro P action cid project_id project_name project_description new_name
      new_description limit hinit hmem
    simp only [List.mem_cons, List.not_mem_nil, or_false, not_or] at hmem
    obtain ⟨h1, h2, h3, h4, h5⟩ := hmem
    unfold data_science_projects
    rw [hinit]
    simp [h1, h2, h3, h4, h5]
  · intro P action cid project_id model_id target_dir model_version_set_id limit hmem
    simp only [List.mem_cons, List.not_mem_nil, or_false, not_or] at hmem
    obtain ⟨h1, h2, h3, h4, h5⟩ := hmem
    unfold data_science_model_catalog
    simp [h1, h2, h3, h4, h5]
  · intro P action compartment_id project_id job_id display_name script_path conda_env
      shape ocpus memory_in_gbs block_storage_size image new_display_name hmem
    simp only [List.mem_cons, List.not_mem_nil, or_false, not_or] at hmem
    obtain ⟨h1, h2, h3, h4, h5, h6⟩ := hmem
    unfold data_science_jobs
    simp [h1, h2, h3, h4, h5, h6]
  · intro P action compartment_id project_id job_id display_name job_run_id limit
      hacq hmem
    simp only [List.mem_cons, List.not_mem_nil, or_false, not_or] at hmem
    obtain ⟨h1, h2, h3, h4⟩ := hmem
    unfold data_science_job_runs
    rw [hacq]
    simp [h1, h2, h3, h4]
  · intro P action compartment_id project_id notebook_session_id display_name shape
      block_storage_size_in_gbs subnet_id private_endpoint_id ocpus memory_in_gbs
      hacq hmem
    simp only [List.mem_cons, List.not_mem_nil, or_false, not_or] at hmem
    obtain ⟨h1, h2, h3, h4, h5⟩ := hmem
    unfold data_science_notebook_sessions
    rw [hacq]
    simp [h1, h2, h3, h4, h5]
  · intro P action compartment_id pipeline_id limit hacq hmem
    simp only [List.mem_cons, List.not_mem_nil, or_false, not_or] at hmem
    obtain ⟨h1, h2, h3⟩ := hmem
    unfold data_science_pipelines
    rw [hacq]
    simp [h1, h2, h3]
  · intro P action cid pid display_name pipeline_run_id limit hcid hpid hacq hmem
    simp only [List.mem_cons, List.not_mem_nil, or_false, not_or] at hmem
    obtain ⟨h1, h2, h3⟩ := hmem
    unfold data_science_pipeline_runs
    simp only [valueOfStrOpt, _require, isBlank, hcid, hpid, Option.getD_some]
    rw [hacq]
    simp [h1, h2, h3]
  · intro P action compartment_id project_id model_id display_name deployment_id
      subnet_id log_group access_log predict_log shape ocpus memory_in_gbs limit
      hacq hmem
    simp only [List.mem_cons, List.not_mem_nil, or_false, not_or] at hmem
    obtain ⟨h1, h2, h3, h4, h5⟩ := hmem
    unfold data_science_model_deployments
    rw [hacq]
    simp [h1, h2, h3, h4, h5]

/-- Witness for C8 (amended): action `bogus` on each of the eight dispatching
tools with providers whose pre-dispatch steps succeed. -/
theorem claim_C8_witness :
    data_science_projects projProv1 "bogus" "c" none none none none none none
      = .error (unsupportedMsg "bogus") ∧
    data_science_model_catalog mcProv1 "bogus" "c" none none none none none
      = .error (unsupportedMsg "bogus") ∧
    data_science_jobs jobsProv1 "bogus" none none none none none
        "generalml_p311_cpu_x86_64_v1" "VM.Standard2.2" none none 50 none none
      = .error (unsupportedMsg "bogus") ∧
    data_science_job_runs jrProv1 "bogus" none none none none none none
      = .error (unsupportedMsg "bogus") ∧
    data_science_notebook_sessions nbProv1 "bogus" none none none none
        "VM.Standard2.1" 50 none none none none
      = .error (unsupportedMsg "bogus") ∧
    data_science_pipelines plProv1 "bogus" none none none
      = .error (unsupportedMsg "bogus") ∧
    data_science_pipeline_runs prProv1 "bogus" (some "c") (some "pl1") none none none
      = .error (unsupportedMsg "bogus") ∧
    data_science_model_deployments mdProv1 "bogus" none none none none none none none
        none none "VM.Standard.E2.1" none none none
      = .error (unsupportedMsg "bogus") := by
  obtain ⟨h1, h2, h3, h4, h5, h6, h7, h8⟩ := claim_C8
  exact ⟨h1 projProv1 "bogus" "c" none none none none none none rfl (by decide),
         h2 mcProv1 "bogus" "c" none none none none none (by decide),
         h3 jobsProv1 "bogus" none none none none none "generalml_p311_cpu_x86_64_v1"
           "VM.Standard2.2" none none 50 none none (by decide),
         h4 jrProv1 "bogus" none none none none none none rfl (by decide),
         h5 nbProv1 "bogus" none none none none "VM.Standard2.1" 50 none none none none
           rfl (by decide),
         h6 plProv1 "bogus" none none none rfl (by decide),
         h7 prProv1 "bogus" "c" "pl1" none none none rfl rfl rfl (by decide),
         h8 mdProv1 "bogus" none none none none none none none none none
           "VM.Standard.E2.1" none none none rfl (by decide)⟩
